import Mathlib

/-!
Shallow embedding of the nutrient scaling, aggregation and formatting engine
of `server.js` (recipe-backend-clean).

Modelling conventions:
* JavaScript numbers are idealized as rationals (`ℚ`).
* A raw spreadsheet cell run through JS `parseFloat` is modelled as an
  `Option ℚ`: `some v` when the text parses to the number `v`, `none` when
  `parseFloat` returns `NaN` (absent key, empty or non-numeric text).
  The source pattern `parseFloat(x) || 0` is then `Option.getD · 0`
  (`0 || 0` and `NaN || 0` are both `0` in JS, so the two coincide).
* `Number.prototype.toFixed(d)` is modelled by its numeric value: the input
  rounded to `d` decimal digits (ties away from the smaller value, as the
  ECMAScript algorithm picks the larger candidate integer).
* A value pushed into a spreadsheet row is a `Cell`: a JS string or number.
-/

/-- A spreadsheet cell as appended to a sheet: a string or a number. -/
inductive Cell where
  | str : String → Cell
  | num : ℚ → Cell
deriving DecidableEq

/-- One row of the `NutrientData` sheet (the object built by
`getNutrientData`): a `Food code`, a `Food Name`, and the remaining columns
keyed by header text.  Each column value is stored as its `parseFloat`
reading (`none` when the text does not parse to a number). -/
structure NutrientRecord where
  code : String
  foodName : String
  fields : List (String × Option ℚ)
deriving DecidableEq

/-- Reading `nutrientData[field]` followed by `parseFloat`: an absent key is
`undefined`, and `parseFloat(undefined)` is `NaN`, i.e. `none`. -/
def NutrientRecord.get (r : NutrientRecord) (field : String) : Option ℚ :=
  (r.fields.lookup field).getD none

/-- `parseFloat(x) || 0`: a `NaN` (or zero) parse collapses to `0`. -/
def parseFloatOrZero (v : Option ℚ) : ℚ :=
  v.getD 0

/-- `calculateVitaminD` (server.js lines 39-49): lexicographic string-range
dispatch on the food code. -/
def calculateVitaminD (foodCode : String) (chocal oh25d3 : ℚ) : ℚ :=
  if foodCode ≥ "A001" ∧ foodCode ≤ "L004" then
    chocal
  else if foodCode ≥ "M001" ∧ foodCode ≤ "S010" then
    chocal + (5 * oh25d3)
  else
    0

/-- The fixed list of the 33 scaled column names
(`numericFields` in `calculateScaledNutrition`, server.js lines 136-145;
the `Âµg` spellings are byte-for-byte the ones in the source). -/
def numericFields : List String :=
  ["Protein (g)", "Fat (g)", "Total fibre (g)", "Carbohydrate (g)",
   "Energy (Kcal)", "Energy (KJ)", "Thiamine, B1 (mg)", "Riboflavin, B2 (mg)",
   "Niacin, B3 (mg)", "Pantothenic Acid B5 (mg)", "Pyridoxine B6 (mg)",
   "Biotin, B7 (Âµg)", "Folate, B9 (Âµg)", "Vitamin C (mg)", "Vitamin A (Âµg)",
   "Vitamin D (Âµg)", "VITE (mg)", "VITK1 (Âµg)", "Iron (Fe) mg",
   "Calcium (Ca) mg", "Magnesium (Mg) mg", "Zinc (Zn) mg", "Selenium (Se) Âµg",
   "Sodium (Na) mg", "Potassium (K) mg", "Phosphorus (P) mg", "Cobalt (Co) mg",
   "Omega 3 (mg)", "Omega 6 (mg)", "MUFA", "PUFA", "SATURATED FAT", "TOTAL SUGAR (g)"]

/-- `calculateScaledNutrition` (server.js lines 131-153): scale every listed
field of a record by `quantity / 100`, defaulting unparseable values to 0. -/
def calculateScaledNutrition (nutrientData : NutrientRecord) (quantity : ℚ) :
    List (String × ℚ) :=
  let factor := quantity / 100
  numericFields.map fun field =>
    (field, parseFloatOrZero (nutrientData.get field) * factor)

/-- Reading `scaled[field]` from the object built by
`calculateScaledNutrition` (all fields read by the handler are present, so
the `0` default never fires on the handler's accesses). -/
def scaledGet (scaled : List (String × ℚ)) (field : String) : ℚ :=
  (scaled.lookup field).getD 0

/-- `toFixed d x`: the numeric value of JS `x.toFixed(d)`. -/
def toFixed (d : Nat) (x : ℚ) : ℚ :=
  (round (x * 10 ^ d) : ℤ) / 10 ^ d

/-- The `totalNutrition` accumulator object (server.js lines 202-236),
one field per accumulated nutrient, in source declaration order. -/
structure RecipeTotals where
  energy : ℚ
  protein : ℚ
  fat : ℚ
  carbs : ℚ
  fiber : ℚ
  vitaminD : ℚ
  vitaminA : ℚ
  omega3 : ℚ
  omega6 : ℚ
  energyKJ : ℚ
  thiamine : ℚ
  riboflavin : ℚ
  niacin : ℚ
  pantothenicAcid : ℚ
  pyridoxine : ℚ
  biotin : ℚ
  folate : ℚ
  vitaminC : ℚ
  vitaminE : ℚ
  vitaminK1 : ℚ
  iron : ℚ
  calcium : ℚ
  magnesium : ℚ
  zinc : ℚ
  selenium : ℚ
  sodium : ℚ
  potassium : ℚ
  phosphorus : ℚ
  cobalt : ℚ
  mufa : ℚ
  pufa : ℚ
  saturatedFat : ℚ
  totalSugar : ℚ

theorem RecipeTotals.ext {a b : RecipeTotals}
    (h : a.energy = b.energy ∧ a.protein = b.protein ∧ a.fat = b.fat ∧
      a.carbs = b.carbs ∧ a.fiber = b.fiber ∧ a.vitaminD = b.vitaminD ∧
      a.vitaminA = b.vitaminA ∧ a.omega3 = b.omega3 ∧ a.omega6 = b.omega6 ∧
      a.energyKJ = b.energyKJ ∧ a.thiamine = b.thiamine ∧
      a.riboflavin = b.riboflavin ∧ a.niacin = b.niacin ∧
      a.pantothenicAcid = b.pantothenicAcid ∧ a.pyridoxine = b.pyridoxine ∧
      a.biotin = b.biotin ∧ a.folate = b.folate ∧ a.vitaminC = b.vitaminC ∧
      a.vitaminE = b.vitaminE ∧ a.vitaminK1 = b.vitaminK1 ∧ a.iron = b.iron ∧
      a.calcium = b.calcium ∧ a.magnesium = b.magnesium ∧ a.zinc = b.zinc ∧
      a.selenium = b.selenium ∧ a.sodium = b.sodium ∧
      a.potassium = b.potassium ∧ a.phosphorus = b.phosphorus ∧
      a.cobalt = b.cobalt ∧ a.mufa = b.mufa ∧ a.pufa = b.pufa ∧
      a.saturatedFat = b.saturatedFat ∧ a.totalSugar = b.totalSugar) :
    a = b := by
  obtain ⟨h1, h2, h3, h4, h5, h6, h7, h8, h9, h10, h11, h12, h13, h14, h15,
    h16, h17, h18, h19, h20, h21, h22, h23, h24, h25, h26, h27, h28, h29,
    h30, h31, h32, h33⟩ := h
  cases a
  cases b
  simp_all

/-- The all-zero initial value of `totalNutrition` (server.js lines 202-236). -/
def totalNutrition : RecipeTotals :=
  { energy := 0, protein := 0, fat := 0, carbs := 0, fiber := 0,
    vitaminD := 0, vitaminA := 0, omega3 := 0, omega6 := 0, energyKJ := 0,
    thiamine := 0, riboflavin := 0, niacin := 0, pantothenicAcid := 0,
    pyridoxine := 0, biotin := 0, folate := 0, vitaminC := 0, vitaminE := 0,
    vitaminK1 := 0, iron := 0, calcium := 0, magnesium := 0, zinc := 0,
    selenium := 0, sodium := 0, potassium := 0, phosphorus := 0, cobalt := 0,
    mufa := 0, pufa := 0, saturatedFat := 0, totalSugar := 0 }

/-- One loop iteration's `totalNutrition.x += scaled['...']` block
(server.js lines 249-281), as a pure update. -/
def addScaled (t : RecipeTotals) (scaled : List (String × ℚ)) : RecipeTotals :=
  { energy := t.energy + scaledGet scaled "Energy (Kcal)",
    protein := t.protein + scaledGet scaled "Protein (g)",
    fat := t.fat + scaledGet scaled "Fat (g)",
    carbs := t.carbs + scaledGet scaled "Carbohydrate (g)",
    fiber := t.fiber + scaledGet scaled "Total fibre (g)",
    vitaminD := t.vitaminD + scaledGet scaled "Vitamin D (Âµg)",
    vitaminA := t.vitaminA + scaledGet scaled "Vitamin A (Âµg)",
    omega3 := t.omega3 + scaledGet scaled "Omega 3 (mg)",
    omega6 := t.omega6 + scaledGet scaled "Omega 6 (mg)",
    energyKJ := t.energyKJ + scaledGet scaled "Energy (KJ)",
    thiamine := t.thiamine + scaledGet scaled "Thiamine, B1 (mg)",
    riboflavin := t.riboflavin + scaledGet scaled "Riboflavin, B2 (mg)",
    niacin := t.niacin + scaledGet scaled "Niacin, B3 (mg)",
    pantothenicAcid := t.pantothenicAcid + scaledGet scaled "Pantothenic Acid B5 (mg)",
    pyridoxine := t.pyridoxine + scaledGet scaled "Pyridoxine B6 (mg)",
    biotin := t.biotin + scaledGet scaled "Biotin, B7 (Âµg)",
    folate := t.folate + scaledGet scaled "Folate, B9 (Âµg)",
    vitaminC := t.vitaminC + scaledGet scaled "Vitamin C (mg)",
    vitaminE := t.vitaminE + scaledGet scaled "VITE (mg)",
    vitaminK1 := t.vitaminK1 + scaledGet scaled "VITK1 (Âµg)",
    iron := t.iron + scaledGet scaled "Iron (Fe) mg",
    calcium := t.calcium + scaledGet scaled "Calcium (Ca) mg",
    magnesium := t.magnesium + scaledGet scaled "Magnesium (Mg) mg",
    zinc := t.zinc + scaledGet scaled "Zinc (Zn) mg",
    selenium := t.selenium + scaledGet scaled "Selenium (Se) Âµg",
    sodium := t.sodium + scaledGet scaled "Sodium (Na) mg",
    potassium := t.potassium + scaledGet scaled "Potassium (K) mg",
    phosphorus := t.phosphorus + scaledGet scaled "Phosphorus (P) mg",
    cobalt := t.cobalt + scaledGet scaled "Cobalt (Co) mg",
    mufa := t.mufa + scaledGet scaled "MUFA",
    pufa := t.pufa + scaledGet scaled "PUFA",
    saturatedFat := t.saturatedFat + scaledGet scaled "SATURATED FAT",
    totalSugar := t.totalSugar + scaledGet scaled "TOTAL SUGAR (g)" }

/-- One entry of the request's `ingredients` array. -/
structure Ingredient where
  lineNo : Nat
  code : String
  ingName : String
  quantityInGrams : ℚ
deriving DecidableEq

/-- One element of `recipeItems` (server.js lines 284-324): identifying
metadata plus the scaled mapping the row's 33 numeric cells are read from. -/
structure RecipeItem where
  timestamp : String
  recipeId : String
  lineNo : Nat
  code : String
  ingName : String
  quantityInGrams : ℚ
  scaled : List (String × ℚ)
deriving DecidableEq

/-- Build the `recipeItems.push([...])` entry for one ingredient. -/
def mkRecipeItem (timestamp recipeId : String) (ing : Ingredient)
    (scaled : List (String × ℚ)) : RecipeItem :=
  { timestamp := timestamp, recipeId := recipeId, lineNo := ing.lineNo,
    code := ing.code, ingName := ing.ingName,
    quantityInGrams := ing.quantityInGrams, scaled := scaled }

/-- Column order of the 33 scaled cells pushed into a `recipeItems` row
(server.js lines 291-323). -/
def itemFieldOrder : List String :=
  ["Energy (Kcal)", "Protein (g)", "Fat (g)", "Carbohydrate (g)",
   "Total fibre (g)", "Vitamin D (Âµg)", "Vitamin A (Âµg)", "Omega 3 (mg)",
   "Omega 6 (mg)", "Energy (KJ)", "Thiamine, B1 (mg)", "Riboflavin, B2 (mg)",
   "Niacin, B3 (mg)", "Pantothenic Acid B5 (mg)", "Pyridoxine B6 (mg)",
   "Biotin, B7 (Âµg)", "Folate, B9 (Âµg)", "Vitamin C (mg)", "VITE (mg)",
   "VITK1 (Âµg)", "Iron (Fe) mg", "Calcium (Ca) mg", "Magnesium (Mg) mg",
   "Zinc (Zn) mg", "Selenium (Se) Âµg", "Sodium (Na) mg", "Potassium (K) mg",
   "Phosphorus (P) mg", "Cobalt (Co) mg", "MUFA", "PUFA", "SATURATED FAT",
   "TOTAL SUGAR (g)"]

/-- The flat cell list of a `recipeItems` row (server.js lines 284-324). -/
def recipeItemCells (item : RecipeItem) : List Cell :=
  [Cell.str item.timestamp, Cell.str item.recipeId,
   Cell.num (item.lineNo : ℚ), Cell.str item.code, Cell.str item.ingName,
   Cell.num item.quantityInGrams]
  ++ itemFieldOrder.map fun field => Cell.num (scaledGet item.scaled field)

/-- The `for (const ingredient of ingredients)` loop (server.js lines
241-325): look the food code up with `nutrientData.find`, `continue` on a
miss, otherwise scale, fold into the accumulator and emit a row, in input
order. -/
def processIngredients (timestamp recipeId : String)
    (nutrientData : List NutrientRecord) :
    List Ingredient → RecipeTotals → RecipeTotals × List RecipeItem
  | [], t => (t, [])
  | ing :: rest, t =>
    match nutrientData.find? (fun n => n.code == ing.code) with
    | none => processIngredients timestamp recipeId nutrientData rest t
    | some nutrient =>
      let scaled := calculateScaledNutrition nutrient ing.quantityInGrams
      let out := processIngredients timestamp recipeId nutrientData rest
        (addScaled t scaled)
      (out.1, mkRecipeItem timestamp recipeId ing scaled :: out.2)

/-- `omega3To6Ratio` (server.js lines 328-329): the guarded ratio's numeric
value (`(omega3/omega6).toFixed(2)` when `omega6 > 0`, else the literal 0). -/
def omega3To6RatioValue (t : RecipeTotals) : ℚ :=
  if t.omega6 > 0 then toFixed 2 (t.omega3 / t.omega6) else 0

/-- Request/metadata strings threaded into the persisted recipe row. -/
structure RecipeMeta where
  timestamp : String
  recipeId : String
  recipeName : String
  method : String
  healthBenefits : String
  precautions : String
  srcText : String
  mealTags : String
deriving DecidableEq

/-- The `recipeRow` cell list (server.js lines 332-382). -/
def recipeRow (m : RecipeMeta) (recipeYield : ℚ) (t : RecipeTotals) : List Cell :=
  [Cell.str m.timestamp,
   Cell.str m.recipeId,
   Cell.str m.recipeName,
   Cell.num recipeYield,
   Cell.str m.method,
   Cell.str m.healthBenefits,
   Cell.str m.precautions,
   Cell.str m.srcText,
   Cell.str m.mealTags,
   Cell.num (toFixed 2 t.energy),
   Cell.num (toFixed 2 t.protein),
   Cell.num (toFixed 2 t.fat),
   Cell.num (toFixed 2 t.carbs),
   Cell.num (toFixed 2 t.fiber),
   Cell.num (toFixed 2 t.vitaminD),
   Cell.num (toFixed 2 t.vitaminA),
   Cell.num (toFixed 2 t.omega3),
   Cell.num (toFixed 2 t.omega6),
   Cell.num (omega3To6RatioValue t),
   Cell.num (toFixed 2 t.energyKJ),
   Cell.num (toFixed 3 t.thiamine),
   Cell.num (toFixed 3 t.riboflavin),
   Cell.num (toFixed 2 t.niacin),
   Cell.num (toFixed 2 t.pantothenicAcid),
   Cell.num (toFixed 3 t.pyridoxine),
   Cell.num (toFixed 2 t.biotin),
   Cell.num (toFixed 2 t.folate),
   Cell.num (toFixed 2 t.vitaminC),
   Cell.num (toFixed 2 t.vitaminE),
   Cell.num (toFixed 2 t.vitaminK1),
   Cell.num (toFixed 2 t.iron),
   Cell.num (toFixed 2 t.calcium),
   Cell.num (toFixed 2 t.magnesium),
   Cell.num (toFixed 2 t.zinc),
   Cell.num (toFixed 2 t.selenium),
   Cell.num (toFixed 2 t.sodium),
   Cell.num (toFixed 2 t.potassium),
   Cell.num (toFixed 2 t.phosphorus),
   Cell.num (toFixed 3 t.cobalt),
   Cell.num (toFixed 2 t.mufa),
   Cell.num (toFixed 2 t.pufa),
   Cell.num (toFixed 2 t.saturatedFat),
   Cell.num (toFixed 2 t.totalSugar),
   Cell.num recipeYield,
   Cell.num (toFixed 2 (t.energy / recipeYield)),
   Cell.num (toFixed 2 (t.protein / recipeYield)),
   Cell.num (toFixed 2 (t.fat / recipeYield)),
   Cell.num (toFixed 2 (t.carbs / recipeYield)),
   Cell.num (toFixed 2 (t.fiber / recipeYield))]

/-- The `perServing` object of the JSON response (server.js lines 411-417). -/
structure PerServing where
  energy : ℚ
  protein : ℚ
  fat : ℚ
  carbs : ℚ
  fiber : ℚ
deriving DecidableEq

/-- Build the response's `perServing` values from totals and yield. -/
def perServing (t : RecipeTotals) (recipeYield : ℚ) : PerServing :=
  { energy := toFixed 2 (t.energy / recipeYield),
    protein := toFixed 2 (t.protein / recipeYield),
    fat := toFixed 2 (t.fat / recipeYield),
    carbs := toFixed 2 (t.carbs / recipeYield),
    fiber := toFixed 2 (t.fiber / recipeYield) }

/-- Everything the `POST /api/recipes` handler produces from the pure core:
the persisted recipe row, the persisted per-ingredient rows, and the
`nutrition` object of the JSON response (`total` is the accumulator object
itself, `perServing` the five divided-and-rounded fields). -/
structure HandlerOutput where
  row : List Cell
  items : List RecipeItem
  responseTotal : RecipeTotals
  responsePerServing : PerServing

/-- The pure computation of the `POST /api/recipes` handler
(server.js lines 202-419). -/
def postRecipe (nutrientData : List NutrientRecord)
    (ingredients : List Ingredient) (m : RecipeMeta)
    (recipeYield : ℚ) : HandlerOutput :=
  let out := processIngredients m.timestamp m.recipeId nutrientData
    ingredients totalNutrition
  { row := recipeRow m recipeYield out.1,
    items := out.2,
    responseTotal := out.1,
    responsePerServing := perServing out.1 recipeYield }

/-- The 33 accumulator fields in declaration/row order, each as
(projection, accumulator field name, scaled-object column name).
The projection+column pairs are read off the `+=` block (server.js lines
249-281); the middle names are the accumulator's own field names. -/
def totalsFields : List ((RecipeTotals → ℚ) × String × String) :=
  [(fun t => t.energy, "energy", "Energy (Kcal)"),
   (fun t => t.protein, "protein", "Protein (g)"),
   (fun t => t.fat, "fat", "Fat (g)"),
   (fun t => t.carbs, "carbs", "Carbohydrate (g)"),
   (fun t => t.fiber, "fiber", "Total fibre (g)"),
   (fun t => t.vitaminD, "vitaminD", "Vitamin D (Âµg)"),
   (fun t => t.vitaminA, "vitaminA", "Vitamin A (Âµg)"),
   (fun t => t.omega3, "omega3", "Omega 3 (mg)"),
   (fun t => t.omega6, "omega6", "Omega 6 (mg)"),
   (fun t => t.energyKJ, "energyKJ", "Energy (KJ)"),
   (fun t => t.thiamine, "thiamine", "Thiamine, B1 (mg)"),
   (fun t => t.riboflavin, "riboflavin", "Riboflavin, B2 (mg)"),
   (fun t => t.niacin, "niacin", "Niacin, B3 (mg)"),
   (fun t => t.pantothenicAcid, "pantothenicAcid", "Pantothenic Acid B5 (mg)"),
   (fun t => t.pyridoxine, "pyridoxine", "Pyridoxine B6 (mg)"),
   (fun t => t.biotin, "biotin", "Biotin, B7 (Âµg)"),
   (fun t => t.folate, "folate", "Folate, B9 (Âµg)"),
   (fun t => t.vitaminC, "vitaminC", "Vitamin C (mg)"),
   (fun t => t.vitaminE, "vitaminE", "VITE (mg)"),
   (fun t => t.vitaminK1, "vitaminK1", "VITK1 (Âµg)"),
   (fun t => t.iron, "iron", "Iron (Fe) mg"),
   (fun t => t.calcium, "calcium", "Calcium (Ca) mg"),
   (fun t => t.magnesium, "magnesium", "Magnesium (Mg) mg"),
   (fun t => t.zinc, "zinc", "Zinc (Zn) mg"),
   (fun t => t.selenium, "selenium", "Selenium (Se) Âµg"),
   (fun t => t.sodium, "sodium", "Sodium (Na) mg"),
   (fun t => t.potassium, "potassium", "Potassium (K) mg"),
   (fun t => t.phosphorus, "phosphorus", "Phosphorus (P) mg"),
   (fun t => t.cobalt, "cobalt", "Cobalt (Co) mg"),
   (fun t => t.mufa, "mufa", "MUFA"),
   (fun t => t.pufa, "pufa", "PUFA"),
   (fun t => t.saturatedFat, "saturatedFat", "SATURATED FAT"),
   (fun t => t.totalSugar, "totalSugar", "TOTAL SUGAR (g)")]

/-- Modelled from the spec: the per-field output precision the specification
ascribes to the formatter — 2 decimals for every total field except
thiamine, riboflavin, pyridoxine and cobalt, which get 3. -/
def specPrecision (accumulatorField : String) : Nat :=
  if accumulatorField ∈ ["thiamine", "riboflavin", "pyridoxine", "cobalt"]
  then 3 else 2

/-- Pointwise order on accumulators: every one of the 33 fields is `≤`. -/
def RecipeTotals.le (a b : RecipeTotals) : Prop :=
  ∀ p ∈ totalsFields, p.1 a ≤ p.1 b

/-! ### Supporting lemmas -/

theorem lookup_map_self (g : String → ℚ) :
    ∀ (l : List String) (f : String), f ∈ l →
      (l.map fun a => (a, g a)).lookup f = some (g f) := by
  intro l
  induction l with
  | nil => intro f h; cases h
  | cons a rest ih =>
    intro f h
    simp only [List.map_cons, List.lookup]
    cases hfa : f == a with
    | true =>
      have : f = a := eq_of_beq hfa
      subst this
      rfl
    | false =>
      have hne : f ≠ a := ne_of_beq_false hfa
      have hmem : f ∈ rest := by
        rcases List.mem_cons.mp h with h1 | h1
        · exact absurd h1 hne
        · exact h1
      exact ih f hmem

theorem map_fst_map_self (g : String → ℚ) (l : List String) :
    (l.map fun a => (a, g a)).map Prod.fst = l := by
  induction l with
  | nil => rfl
  | cons a rest ih => simp [ih]

theorem calculateScaledNutrition_lookup (r : NutrientRecord) (q : ℚ)
    (field : String) (h : field ∈ numericFields) :
    (calculateScaledNutrition r q).lookup field
      = some (parseFloatOrZero (r.get field) * (q / 100)) := by
  simpa [calculateScaledNutrition] using
    lookup_map_self (fun a => parseFloatOrZero (r.get a) * (q / 100))
      numericFields field h

/-! ### C1 -/

/-- C1: for every nutrient record and quantity `q`, `calculateScaledNutrition`
returns a mapping whose keys are exactly the 33 canonical nutrient fields and
in which each field equals (parsed source value) * (q / 100), where an absent
or non-numeric source field counts as exactly zero before scaling (so every
output field is a genuine number, never NaN). -/
theorem calculateScaledNutrition_spec (r : NutrientRecord) (q : ℚ) :
    (calculateScaledNutrition r q).map Prod.fst = numericFields ∧
    ∀ field ∈ numericFields,
      (calculateScaledNutrition r q).lookup field
        = some (parseFloatOrZero (r.get field) * (q / 100)) := by
  constructor
  · simpa [calculateScaledNutrition] using
      map_fst_map_self
        (fun a => parseFloatOrZero (r.get a) * (q / 100)) numericFields
  · intro field h
    exact calculateScaledNutrition_lookup r q field h

/-- A record whose `Energy (Kcal)` parses to 400, whose `Protein (g)` cell is
non-numeric (`parseFloat` gives NaN, modelled `none`) and whose other columns
are absent altogether. -/
def sampleRecord : NutrientRecord :=
  { code := "A001", foodName := "Rice",
    fields := [("Energy (Kcal)", some 400), ("Protein (g)", none)] }

theorem calculateScaledNutrition_spec_witness :
    (calculateScaledNutrition sampleRecord 50).lookup "Protein (g)"
      = some (parseFloatOrZero (sampleRecord.get "Protein (g)") * (50 / 100)) :=
  (calculateScaledNutrition_spec sampleRecord 50).2 "Protein (g)" (by decide)

/-! ### C2 -/

/-- C2: `calculateVitaminD` returns `chocal` when the food code lies in the
closed lexicographic range ["A001","L004"], `chocal + 5 * oh25d3` when it
lies in ["M001","S010"], and 0 outside both ranges. -/
theorem calculateVitaminD_spec (foodCode : String) (chocal oh25d3 : ℚ) :
    (foodCode ≥ "A001" ∧ foodCode ≤ "L004" →
      calculateVitaminD foodCode chocal oh25d3 = chocal) ∧
    (foodCode ≥ "M001" ∧ foodCode ≤ "S010" →
      calculateVitaminD foodCode chocal oh25d3 = chocal + 5 * oh25d3) ∧
    (¬(foodCode ≥ "A001" ∧ foodCode ≤ "L004") →
      ¬(foodCode ≥ "M001" ∧ foodCode ≤ "S010") →
      calculateVitaminD foodCode chocal oh25d3 = 0) := by
  refine ⟨fun h => ?_, fun h => ?_, fun h1 h2 => ?_⟩
  · rw [calculateVitaminD, if_pos h]
  · have hnot : ¬(foodCode ≥ "A001" ∧ foodCode ≤ "L004") := by
      rintro ⟨-, hle⟩
      have hcon : ("M001" : String) ≤ "L004" := le_trans h.1 hle
      rw [String.le_iff_toList_le] at hcon
      exact absurd hcon (by decide)
    rw [calculateVitaminD, if_neg hnot, if_pos h]
  · rw [calculateVitaminD, if_neg h1, if_neg h2]

theorem calculateVitaminD_spec_witness :
    calculateVitaminD "B002" 10 2 = 10 ∧
    calculateVitaminD "P005" 10 2 = 10 + 5 * 2 ∧
    calculateVitaminD "Z999" 10 2 = 0 :=
  ⟨(calculateVitaminD_spec "B002" 10 2).1
      ⟨by rw [ge_iff_le, String.le_iff_toList_le]; decide,
       by rw [String.le_iff_toList_le]; decide⟩,
   (calculateVitaminD_spec "P005" 10 2).2.1
      ⟨by rw [ge_iff_le, String.le_iff_toList_le]; decide,
       by rw [String.le_iff_toList_le]; decide⟩,
   (calculateVitaminD_spec "Z999" 10 2).2.2
      (by rintro ⟨-, h⟩; rw [String.le_iff_toList_le] at h; revert h; decide)
      (by rintro ⟨-, h⟩; rw [String.le_iff_toList_le] at h; revert h; decide)⟩

/-! ### C6 -/

/-- C6: the omega-3-to-omega-6 ratio is `omega3 / omega6` rounded to 2
decimals when `omega6 > 0`, and the literal value zero otherwise (never a
division error). -/
theorem omega3To6Ratio_spec (t : RecipeTotals) :
    (0 < t.omega6 →
      omega3To6RatioValue t = toFixed 2 (t.omega3 / t.omega6)) ∧
    (¬0 < t.omega6 → omega3To6RatioValue t = 0) := by
  constructor
  · intro h; rw [omega3To6RatioValue, if_pos h]
  · intro h; rw [omega3To6RatioValue, if_neg h]

/-- Totals with omega3 = 10 and omega6 = 0 (all other fields zero). -/
def totalsOmegaZero : RecipeTotals :=
  { totalNutrition with omega3 := 10 }

/-- Totals with omega3 = 10 and omega6 = 5 (all other fields zero). -/
def totalsOmegaFive : RecipeTotals :=
  { totalNutrition with omega3 := 10, omega6 := 5 }

theorem omega3To6Ratio_spec_witness :
    omega3To6RatioValue totalsOmegaZero = 0 ∧
    omega3To6RatioValue totalsOmegaFive = 2 := by
  constructor
  · exact (omega3To6Ratio_spec totalsOmegaZero).2
      (by norm_num [totalsOmegaZero, totalNutrition])
  · have h := (omega3To6Ratio_spec totalsOmegaFive).1
      (by norm_num [totalsOmegaFive, totalNutrition])
    rw [h]
    norm_num [totalsOmegaFive, totalNutrition, toFixed, round_eq]

/-! ### C3 -/

/-- C3: an ingredient line whose food code matches no nutrient record is
silently skipped: the whole aggregation (final totals and emitted row list)
is exactly what it would be with that line removed, so the line contributes
nothing and every other line is still processed normally. -/
theorem missingCode_skip_spec (timestamp recipeId : String)
    (table : List NutrientRecord) (pre post : List Ingredient)
    (ing : Ingredient) (t : RecipeTotals)
    (h : ∀ n ∈ table, n.code ≠ ing.code) :
    processIngredients timestamp recipeId table (pre ++ ing :: post) t
      = processIngredients timestamp recipeId table (pre ++ post) t := by
  have hfind : table.find? (fun n => n.code == ing.code) = none :=
    List.find?_eq_none.mpr fun n hn => by simpa using h n hn
  induction pre generalizing t with
  | nil =>
    simp only [List.nil_append, processIngredients, hfind]
  | cons a pre ih =>
    simp only [List.cons_append, processIngredients]
    cases hfa : table.find? (fun n => n.code == a.code) with
    | none => exact ih t
    | some nutrient => simp [ih]

/-- A one-record table for the witnesses. -/
def sampleTable : List NutrientRecord := [sampleRecord]

/-- An ingredient whose code is present in `sampleTable`. -/
def goodIngredient : Ingredient :=
  { lineNo := 1, code := "A001", ingName := "Rice", quantityInGrams := 50 }

/-- An ingredient whose code is absent from `sampleTable`. -/
def badIngredient : Ingredient :=
  { lineNo := 2, code := "Z999", ingName := "Mystery", quantityInGrams := 10 }

theorem missingCode_skip_spec_witness :
    processIngredients "2024-01-01" "rid" sampleTable
        ([goodIngredient] ++ badIngredient :: []) totalNutrition
      = processIngredients "2024-01-01" "rid" sampleTable
        ([goodIngredient] ++ []) totalNutrition :=
  missingCode_skip_spec "2024-01-01" "rid" sampleTable [goodIngredient] []
    badIngredient totalNutrition (by decide)

/-! ### Aggregation characterization lemmas -/

theorem processIngredients_fst (timestamp recipeId : String)
    (table : List NutrientRecord) :
    ∀ (l : List Ingredient) (t : RecipeTotals),
      (processIngredients timestamp recipeId table l t).1
        = (l.filterMap fun ing =>
            (table.find? fun n => n.code == ing.code).map fun nutrient =>
              calculateScaledNutrition nutrient ing.quantityInGrams).foldl
            addScaled t := by
  intro l
  induction l with
  | nil => intro t; rfl
  | cons ing rest ih =>
    intro t
    simp only [processIngredients, List.filterMap_cons]
    cases hfa : table.find? (fun n => n.code == ing.code) with
    | none => simpa using ih t
    | some nutrient =>
      simpa using
        ih (addScaled t (calculateScaledNutrition nutrient ing.quantityInGrams))

theorem processIngredients_snd (timestamp recipeId : String)
    (table : List NutrientRecord) :
    ∀ (l : List Ingredient) (t : RecipeTotals),
      (processIngredients timestamp recipeId table l t).2
        = l.filterMap fun ing =>
            (table.find? fun n => n.code == ing.code).map fun nutrient =>
              mkRecipeItem timestamp recipeId ing
                (calculateScaledNutrition nutrient ing.quantityInGrams) := by
  intro l
  induction l with
  | nil => intro t; rfl
  | cons ing rest ih =>
    intro t
    simp only [processIngredients, List.filterMap_cons]
    cases hfa : table.find? (fun n => n.code == ing.code) with
    | none => simpa using ih t
    | some nutrient =>
      simpa using
        ih (addScaled t (calculateScaledNutrition nutrient ing.quantityInGrams))

theorem addScaled_addScaled_comm (t : RecipeTotals)
    (x y : List (String × ℚ)) :
    addScaled (addScaled t x) y = addScaled (addScaled t y) x := by
  apply RecipeTotals.ext
  simp only [addScaled]
  refine ⟨?_, ?_, ?_, ?_, ?_, ?_, ?_, ?_, ?_, ?_, ?_, ?_, ?_, ?_, ?_, ?_,
    ?_, ?_, ?_, ?_, ?_, ?_, ?_, ?_, ?_, ?_, ?_, ?_, ?_, ?_, ?_, ?_, ?_⟩ <;>
    ring

/-! ### C7 -/

/-- C7: permuting the ingredient list leaves the final totals unchanged
(order-independent sums), while the emitted row list always follows the
input ingredient order with no reordering and no deduplication: it is
exactly the input list filtered to the lines whose code is found, each
occurrence (duplicates included) mapped to its own row. -/
theorem aggregation_order_spec (timestamp recipeId : String)
    (table : List NutrientRecord) (l l2 : List Ingredient)
    (h : l.Perm l2) :
    (processIngredients timestamp recipeId table l totalNutrition).1
      = (processIngredients timestamp recipeId table l2 totalNutrition).1 ∧
    (processIngredients timestamp recipeId table l totalNutrition).2
      = l.filterMap fun ing =>
          (table.find? fun n => n.code == ing.code).map fun nutrient =>
            mkRecipeItem timestamp recipeId ing
              (calculateScaledNutrition nutrient ing.quantityInGrams) := by
  constructor
  · rw [processIngredients_fst, processIngredients_fst]
    exact List.Perm.foldl_eq'
      (h.filterMap fun ing =>
        (table.find? fun n => n.code == ing.code).map fun nutrient =>
          calculateScaledNutrition nutrient ing.quantityInGrams)
      (fun x _ y _ z => addScaled_addScaled_comm z x y) totalNutrition
  · exact processIngredients_snd timestamp recipeId table l totalNutrition

/-- A second record so the witness recipe has two found ingredients. -/
def sampleRecordB : NutrientRecord :=
  { code := "B001", foodName := "Dal",
    fields := [("Protein (g)", some 20)] }

/-- A two-record table for witnesses. -/
def tableAB : List NutrientRecord := [sampleRecord, sampleRecordB]

/-- Second witness ingredient, matching `sampleRecordB`. -/
def ingredientB : Ingredient :=
  { lineNo := 2, code := "B001", ingName := "Dal", quantityInGrams := 100 }

theorem aggregation_order_spec_witness :
    ((processIngredients "ts" "rid" tableAB [goodIngredient, ingredientB]
        totalNutrition).1
      = (processIngredients "ts" "rid" tableAB [ingredientB, goodIngredient]
        totalNutrition).1) ∧
    ((processIngredients "ts" "rid" tableAB [goodIngredient, ingredientB]
        totalNutrition).2
      = [goodIngredient, ingredientB].filterMap fun ing =>
          (tableAB.find? fun n => n.code == ing.code).map fun nutrient =>
            mkRecipeItem "ts" "rid" ing
              (calculateScaledNutrition nutrient ing.quantityInGrams)) :=
  aggregation_order_spec "ts" "rid" tableAB [goodIngredient, ingredientB]
    [ingredientB, goodIngredient] (List.Perm.swap ingredientB goodIngredient [])

/-! ### C9 -/

theorem addScaled_proj :
    ∀ p ∈ totalsFields, ∀ (t : RecipeTotals) (s : List (String × ℚ)),
      p.1 (addScaled t s) = p.1 t + scaledGet s p.2.2 := by
  intro p hp
  fin_cases hp <;> exact fun t s => rfl

theorem totalNutrition_proj_zero :
    ∀ p ∈ totalsFields, p.1 totalNutrition = 0 := by
  intro p hp
  fin_cases hp <;> rfl

theorem process_field_sum (p : (RecipeTotals → ℚ) × String × String)
    (hp : p ∈ totalsFields) (timestamp recipeId : String)
    (table : List NutrientRecord) :
    ∀ (l : List Ingredient) (t : RecipeTotals),
      p.1 (processIngredients timestamp recipeId table l t).1
        = p.1 t + ((processIngredients timestamp recipeId table l t).2.map
            fun item => scaledGet item.scaled p.2.2).sum := by
  intro l
  induction l with
  | nil => intro t; simp [processIngredients]
  | cons ing rest ih =>
    intro t
    simp only [processIngredients]
    cases hfa : table.find? (fun n => n.code == ing.code) with
    | none => simpa using ih t
    | some nutrient =>
      simp only [List.map_cons, List.sum_cons]
      rw [ih, addScaled_proj p hp]
      dsimp [mkRecipeItem]
      ring

/-- C9: for each of the 33 accumulated nutrient fields, the final total is
exactly the sum of that field's scaled values over all emitted rows: the
persisted per-ingredient rows are always consistent with the reported
totals. -/
theorem totals_match_rows_spec (timestamp recipeId : String)
    (table : List NutrientRecord) (l : List Ingredient)
    (j : Fin totalsFields.length) :
    (totalsFields.get j).1
        (processIngredients timestamp recipeId table l totalNutrition).1
      = ((processIngredients timestamp recipeId table l totalNutrition).2.map
          fun item => scaledGet item.scaled (totalsFields.get j).2.2).sum := by
  have hmem : totalsFields.get j ∈ totalsFields := totalsFields.get_mem j.1 j.2
  rw [process_field_sum (totalsFields.get j) hmem timestamp recipeId table l
    totalNutrition, totalNutrition_proj_zero (totalsFields.get j) hmem,
    zero_add]

/-! ### C8 -/

theorem RecipeTotals.le_refl (t : RecipeTotals) : t.le t :=
  fun _ _ => le_rfl

theorem RecipeTotals.le_trans {a b c : RecipeTotals}
    (h1 : a.le b) (h2 : b.le c) : a.le c :=
  fun p hp => (h1 p hp).trans (h2 p hp)

theorem le_addScaled (t : RecipeTotals) (s : List (String × ℚ))
    (hs : ∀ p ∈ totalsFields, 0 ≤ scaledGet s p.2.2) :
    t.le (addScaled t s) := by
  intro p hp
  rw [addScaled_proj p hp]
  have := hs p hp
  linarith

theorem totalsFields_col_mem :
    ∀ p ∈ totalsFields, p.2.2 ∈ numericFields := by
  intro p hp
  fin_cases hp <;> decide

theorem scaled_nonneg (r : NutrientRecord) (q : ℚ)
    (hr : ∀ f ∈ numericFields, 0 ≤ parseFloatOrZero (r.get f)) (hq : 0 ≤ q) :
    ∀ p ∈ totalsFields, 0 ≤ scaledGet (calculateScaledNutrition r q) p.2.2 := by
  intro p hp
  have hmem := totalsFields_col_mem p hp
  rw [scaledGet, calculateScaledNutrition_lookup r q p.2.2 hmem,
    Option.getD_some]
  exact mul_nonneg (hr p.2.2 hmem) (by positivity)

theorem le_processIngredients (timestamp recipeId : String)
    (table : List NutrientRecord)
    (hr : ∀ n ∈ table, ∀ f ∈ numericFields, 0 ≤ parseFloatOrZero (n.get f)) :
    ∀ (l : List Ingredient), (∀ ing ∈ l, 0 ≤ ing.quantityInGrams) →
      ∀ t : RecipeTotals,
        t.le (processIngredients timestamp recipeId table l t).1 := by
  intro l
  induction l with
  | nil => intro _ t; exact RecipeTotals.le_refl t
  | cons ing rest ih =>
    intro hq t
    simp only [processIngredients]
    cases hfa : table.find? (fun n => n.code == ing.code) with
    | none => exact ih (fun i hi => hq i (List.mem_cons_of_mem _ hi)) t
    | some nutrient =>
      have hn : nutrient ∈ table := List.mem_of_find?_eq_some hfa
      have h1 : t.le (addScaled t
          (calculateScaledNutrition nutrient ing.quantityInGrams)) :=
        le_addScaled t _
          (scaled_nonneg nutrient ing.quantityInGrams (hr nutrient hn)
            (hq ing (List.mem_cons_self ing rest)))
      have h2 := ih (fun i hi => hq i (List.mem_cons_of_mem _ hi))
        (addScaled t (calculateScaledNutrition nutrient ing.quantityInGrams))
      exact RecipeTotals.le_trans h1 h2

theorem processIngredients_fst_append (timestamp recipeId : String)
    (table : List NutrientRecord) :
    ∀ (xs ys : List Ingredient) (t : RecipeTotals),
      (processIngredients timestamp recipeId table (xs ++ ys) t).1
        = (processIngredients timestamp recipeId table ys
            (processIngredients timestamp recipeId table xs t).1).1 := by
  intro xs
  induction xs with
  | nil => intro ys t; rfl
  | cons ing rest ih =>
    intro ys t
    simp only [List.cons_append, processIngredients]
    cases hfa : table.find? (fun n => n.code == ing.code) with
    | none => exact ih ys t
    | some nutrient =>
      simpa using
        ih ys (addScaled t (calculateScaledNutrition nutrient ing.quantityInGrams))

/-- C8: every accumulator field starts at exactly zero, and, provided every
source value parses non-negative and every ingredient quantity is
non-negative, each field is monotonically non-decreasing as successive
ingredient lines are folded in (the totals after k+1 lines dominate the
totals after k lines, pointwise in all 33 fields). -/
theorem totals_monotone_spec (timestamp recipeId : String)
    (table : List NutrientRecord) (l : List Ingredient) :
    (∀ p ∈ totalsFields, p.1 totalNutrition = 0) ∧
    ((∀ n ∈ table, ∀ f ∈ numericFields, 0 ≤ parseFloatOrZero (n.get f)) →
     (∀ ing ∈ l, 0 ≤ ing.quantityInGrams) →
     ∀ k : ℕ,
       RecipeTotals.le
         (processIngredients timestamp recipeId table (l.take k)
           totalNutrition).1
         (processIngredients timestamp recipeId table (l.take (k + 1))
           totalNutrition).1) := by
  refine ⟨totalNutrition_proj_zero, fun hr hq k => ?_⟩
  rw [List.take_succ]
  cases hk : l[k]? with
  | none =>
    simpa using RecipeTotals.le_refl
      (processIngredients timestamp recipeId table (l.take k) totalNutrition).1
  | some ing =>
    rw [show (some ing).toList = [ing] from rfl,
      processIngredients_fst_append]
    exact le_processIngredients timestamp recipeId table hr [ing]
      (fun i hi => by
        have hi2 := List.mem_singleton.mp hi
        rw [hi2]
        exact hq _ (List.getElem?_mem hk)) _

theorem totals_monotone_spec_witness :
    ((fun t => RecipeTotals.energy t, "energy", "Energy (Kcal)") :
        (RecipeTotals → ℚ) × String × String).1 totalNutrition = 0 ∧
    RecipeTotals.le
      (processIngredients "ts" "rid" sampleTable
        ([goodIngredient].take 0) totalNutrition).1
      (processIngredients "ts" "rid" sampleTable
        ([goodIngredient].take 1) totalNutrition).1 := by
  constructor
  · exact (totals_monotone_spec "ts" "rid" sampleTable [goodIngredient]).1 _
      (List.mem_cons_self _ _)
  · exact (totals_monotone_spec "ts" "rid" sampleTable [goodIngredient]).2
      (by decide) (by decide) 0

/-! ### C4 -/

/-- C4: in the persisted recipe row every total nutrient field is rounded to
exactly 2 decimal places, except thiamine, riboflavin, pyridoxine and
cobalt, which are rounded to exactly 3 (`specPrecision` is that per-field
rule): the row is the metadata cells, then the 33 totals each rounded to its
`specPrecision` (with the ratio cell inserted after the first nine), then
the yield and the five per-serving cells. -/
theorem recipeRow_precision_spec (m : RecipeMeta) (recipeYield : ℚ)
    (t : RecipeTotals) :
    recipeRow m recipeYield t
      = [Cell.str m.timestamp, Cell.str m.recipeId, Cell.str m.recipeName,
         Cell.num recipeYield, Cell.str m.method, Cell.str m.healthBenefits,
         Cell.str m.precautions, Cell.str m.srcText, Cell.str m.mealTags]
        ++ ((totalsFields.take 9).map fun p =>
              Cell.num (toFixed (specPrecision p.2.1) (p.1 t)))
        ++ [Cell.num (omega3To6RatioValue t)]
        ++ ((totalsFields.drop 9).map fun p =>
              Cell.num (toFixed (specPrecision p.2.1) (p.1 t)))
        ++ [Cell.num recipeYield,
            Cell.num (toFixed 2 (t.energy / recipeYield)),
            Cell.num (toFixed 2 (t.protein / recipeYield)),
            Cell.num (toFixed 2 (t.fat / recipeYield)),
            Cell.num (toFixed 2 (t.carbs / recipeYield)),
            Cell.num (toFixed 2 (t.fiber / recipeYield))] := by
  rfl

/-! ### C5 -/

/-- Request metadata used by the concrete examples. -/
def sampleMeta : RecipeMeta :=
  { timestamp := "2024-01-01", recipeId := "rid", recipeName := "Test",
    method := "", healthBenefits := "", precautions := "", srcText := "",
    mealTags := "" }

/-- C5: the response's per-serving values for energy, protein, fat,
carbohydrate and fiber are the corresponding aggregated total divided by
the declared yield, rounded to 2 decimal places, and the same five values
close the persisted row; the formula is applied for every yield value
(zero or negative included — no validation branch exists), and a total
energy of 200 with yield 2 gives per-serving energy 100. -/
theorem perServing_spec (table : List NutrientRecord)
    (ings : List Ingredient) (m : RecipeMeta) (recipeYield : ℚ) :
    ((postRecipe table ings m recipeYield).responsePerServing
        = { energy := toFixed 2
              ((processIngredients m.timestamp m.recipeId table ings
                totalNutrition).1.energy / recipeYield),
            protein := toFixed 2
              ((processIngredients m.timestamp m.recipeId table ings
                totalNutrition).1.protein / recipeYield),
            fat := toFixed 2
              ((processIngredients m.timestamp m.recipeId table ings
                totalNutrition).1.fat / recipeYield),
            carbs := toFixed 2
              ((processIngredients m.timestamp m.recipeId table ings
                totalNutrition).1.carbs / recipeYield),
            fiber := toFixed 2
              ((processIngredients m.timestamp m.recipeId table ings
                totalNutrition).1.fiber / recipeYield) }
      ∧ (postRecipe table ings m recipeYield).row.drop 44
        = [Cell.num (toFixed 2
              ((processIngredients m.timestamp m.recipeId table ings
                totalNutrition).1.energy / recipeYield)),
           Cell.num (toFixed 2
              ((processIngredients m.timestamp m.recipeId table ings
                totalNutrition).1.protein / recipeYield)),
           Cell.num (toFixed 2
              ((processIngredients m.timestamp m.recipeId table ings
                totalNutrition).1.fat / recipeYield)),
           Cell.num (toFixed 2
              ((processIngredients m.timestamp m.recipeId table ings
                totalNutrition).1.carbs / recipeYield)),
           Cell.num (toFixed 2
              ((processIngredients m.timestamp m.recipeId table ings
                totalNutrition).1.fiber / recipeYield))]) ∧
    ((processIngredients sampleMeta.timestamp sampleMeta.recipeId
        sampleTable [goodIngredient] totalNutrition).1.energy = 200
      ∧ (postRecipe sampleTable [goodIngredient] sampleMeta
          2).responsePerServing.energy = 100) := by
  refine ⟨⟨rfl, rfl⟩, ?_, ?_⟩
  · simp [processIngredients, sampleMeta, sampleTable, sampleRecord,
      goodIngredient, addScaled, totalNutrition, calculateScaledNutrition,
      numericFields, scaledGet, NutrientRecord.get, parseFloatOrZero,
      List.lookup]
    norm_num
  · simp [postRecipe, perServing, processIngredients, sampleMeta,
      sampleTable, sampleRecord, goodIngredient, addScaled, totalNutrition,
      calculateScaledNutrition, numericFields, scaledGet,
      NutrientRecord.get, parseFloatOrZero, List.lookup]
    norm_num [toFixed, round_eq]

/-! ### C10 -/

/-- A table whose single record has an energy value whose scaled total is
not a 2-decimal quantity, so rounding visibly changes it. -/
def demoTable : List NutrientRecord :=
  [{ code := "A001", foodName := "Milk",
     fields := [("Energy (Kcal)", some (2001 / 200))] }]

/-- One ingredient line over `demoTable`. -/
def demoIngredients : List Ingredient :=
  [{ lineNo := 1, code := "A001", ingName := "Milk", quantityInGrams := 33 }]

/-- C10: per-field rounding is applied only to the persisted spreadsheet
row — the `nutrition.total` object of the JSON response is the raw
accumulator itself, unrounded in all 33 fields.  Concretely: with a source
energy of 10.005 per 100 g and a quantity of 33 g the response exposes
3.30165 while the persisted row's energy cell holds the rounded 3.30, and
the two differ. -/
theorem response_raw_totals_spec (table : List NutrientRecord)
    (ings : List Ingredient) (m : RecipeMeta) (recipeYield : ℚ) :
    ((postRecipe table ings m recipeYield).responseTotal
        = (processIngredients m.timestamp m.recipeId table ings
            totalNutrition).1
      ∧ (postRecipe table ings m recipeYield).row
        = recipeRow m recipeYield
            (processIngredients m.timestamp m.recipeId table ings
              totalNutrition).1) ∧
    ((postRecipe demoTable demoIngredients sampleMeta 1).responseTotal.energy
        = 330165 / 100000
      ∧ (postRecipe demoTable demoIngredients sampleMeta 1).row.get? 9
        = some (Cell.num (33 / 10))
      ∧ (330165 / 100000 : ℚ) ≠ 33 / 10) := by
  refine ⟨⟨rfl, rfl⟩, ?_, ?_, by norm_num⟩
  · simp [postRecipe, processIngredients, sampleMeta, demoTable,
      demoIngredients, addScaled, totalNutrition, calculateScaledNutrition,
      numericFields, scaledGet, NutrientRecord.get, parseFloatOrZero,
      List.lookup]
    norm_num
  · simp [postRecipe, recipeRow, processIngredients, sampleMeta, demoTable,
      demoIngredients, addScaled, totalNutrition, calculateScaledNutrition,
      numericFields, scaledGet, NutrientRecord.get, parseFloatOrZero,
      List.lookup]
    norm_num [toFixed, round_eq]
